import Mathlib

/-!
# Shallow embedding of the go-nexrad Archive II decoder

This file embeds the streaming binary decoder of the `archive2` package
(`archive2.go`, `message31.go`, the `Message2` struct file) in Lean 4 and
proves properties of the embedded definitions.

Modelling conventions:

* A byte stream is a `List Nat` (each element a byte value; multi-byte fields
  are recombined big-endian, exactly as Go's `binary.Read` with
  `binary.BigEndian` does).
* Go's fixed-width unsigned integers are `Nat` values obtained from the
  big-endian recombination of the corresponding bytes; where Go arithmetic
  wraps (e.g. `uint16` multiplication in `message31.go`), the wrap is written
  out as an explicit `% 65536`.  Go's `int32` is an `Int` in
  `[-2^31, 2^31)` with two's-complement negation written out explicitly.
* Go `float32` values are modelled as exact rationals (`ℚ`): an `f32` field
  is decoded from its 4 raw bytes with the IEEE-754 binary32 value map
  (`f32val`), and float arithmetic (`ScaledData`, the build-number division)
  is modelled as exact rational arithmetic.  No claim below depends on
  float rounding.
* `binary.Read` semantics: a full read decodes the struct; a partial read
  leaves the destination untouched (the functions below substitute the zero
  value or the previous value, matching Go), consumes what was available,
  and returns `io.EOF` when nothing was read or `io.ErrUnexpectedEOF` when
  the read was cut short.  `io.ReadFull` with the error ignored consumes
  what is available and leaves the rest of the buffer zeroed.
* bzip2 decompression is abstracted: an LDM record of the outer stream is
  modelled as its size word together with the byte list the compressed body
  decompresses to (`RawLDM`).  A `LimitReader` bound of `≤ 0` bytes yields
  the empty decompressed stream.
* `Message2.GetBuildNumber` lives in a repository file that is not present
  here; it is modelled from the spec (see its doc comment).
-/

namespace GoNexrad

/-- Big-endian recombination of a byte list into a `Nat`
(the value `binary.BigEndian` assigns to the bytes). -/
def beVal (bs : List Nat) : Nat :=
  bs.foldl (fun a b => a * 256 + b % 256) 0

/-- The `len`-byte big-endian field at byte offset `off` of stream `s`. -/
def fld (s : List Nat) (off len : Nat) : Nat :=
  beVal ((s.drop off).take len)

/-- Value of an IEEE-754 binary32 bit pattern, as an exact rational.
Infinities and NaNs (exponent 255) are unrepresentable in `ℚ` and are mapped
to 0; no definition or claim below feeds exponent-255 patterns anywhere. -/
def f32val (b : Nat) : ℚ :=
  let sign : Nat := b / 2 ^ 31 % 2
  let exp : Nat := b / 2 ^ 23 % 256
  let frac : Nat := b % 2 ^ 23
  let mag : ℚ :=
    if exp = 0 then (frac : ℚ) / 2 ^ 149
    else if exp = 255 then 0
    else ((2 ^ 23 + frac : Nat) : ℚ) * 2 ^ exp / 2 ^ 150
  if sign = 1 then -mag else mag

/-- The `f32` field at byte offset `off` of stream `s`. -/
def fldF32 (s : List Nat) (off : Nat) : ℚ :=
  f32val (fld s off 4)

/-! ## `message31.go`: data moments and scaling -/

/-- `GenericDataMoment` (`message31.go`): the 24-byte moment header read by
`binary.Read` after the 4-byte data-block prefix. -/
structure GenericDataMoment where
  Reserved : Nat
  NumberDataMomentGates : Nat
  DataMomentRange : Nat
  DataMomentRangeSampleInterval : Nat
  TOVER : Nat
  SNRThreshold : Nat
  ControlFlags : Nat
  DataWordSize : Nat
  Scale : ℚ
  Offset : ℚ
  deriving DecidableEq

/-- The Go zero value of `GenericDataMoment`. -/
def zeroGenericDataMoment : GenericDataMoment :=
  ⟨0, 0, 0, 0, 0, 0, 0, 0, 0, 0⟩

/-- Field layout of `GenericDataMoment` (all big-endian, packed). -/
def parseGenericDataMoment (s : List Nat) : GenericDataMoment where
  Reserved := fld s 0 4
  NumberDataMomentGates := fld s 4 2
  DataMomentRange := fld s 6 2
  DataMomentRangeSampleInterval := fld s 8 2
  TOVER := fld s 10 2
  SNRThreshold := fld s 12 2
  ControlFlags := fld s 14 1
  DataWordSize := fld s 15 1
  Scale := fldF32 s 16
  Offset := fldF32 s 20

/-- `DataMoment` (`message31.go`): a moment header plus its packed gate data. -/
structure DataMoment where
  GenericDataMoment : GenericDataMoment
  Data : List Nat
  deriving DecidableEq

/-- The Go zero value of `DataMoment` (`Data` is the nil slice). -/
def zeroDataMoment : DataMoment :=
  ⟨zeroGenericDataMoment, []⟩

/-- `MomentDataBelowThreshold` (`message31.go`). -/
def MomentDataBelowThreshold : ℚ := 999

/-- `MomentDataFolded` (`message31.go`). -/
def MomentDataFolded : ℚ := 998

/-- `scaleUint` (`message31.go`): `F = (N - OFFSET) / SCALE`, with a scale of
0 indicating data already in floating point units. -/
def scaleUint (n : Nat) (offset scale : ℚ) : ℚ :=
  let val : ℚ := n
  if scale = 0 then val
  else (val - offset) / scale

/-- `DataMoment.ScaledData` (`message31.go`): one output per stored byte,
with the two integer sentinels mapped to the floating sentinels. -/
def DataMoment.ScaledData (d : DataMoment) : List ℚ :=
  d.Data.map fun val =>
    if val = 0 then MomentDataBelowThreshold
    else if val = 1 then MomentDataFolded
    else scaleUint val d.GenericDataMoment.Offset d.GenericDataMoment.Scale

/-! ## `message31.go`: header, data blocks, `NewMessage31` -/

/-- `Message31Header` (`message31.go`): 32 packed bytes read by
`binary.Read`.  `RadarIdentifier` is kept as its 4 raw bytes;
the two `float32` fields carry their IEEE value as a rational. -/
structure Message31Header where
  RadarIdentifier : List Nat
  CollectionTime : Nat
  CollectionDate : Nat
  AzimuthNumber : Nat
  AzimuthAngle : ℚ
  CompressionIndicator : Nat
  Spare : Nat
  RadialLength : Nat
  AzimuthResolutionSpacingCode : Nat
  RadialStatus : Nat
  ElevationNumber : Nat
  CutSectorNumber : Nat
  ElevationAngle : ℚ
  RadialSpotBlankingStatus : Nat
  AzimuthIndexingMode : Nat
  DataBlockCount : Nat
  deriving DecidableEq

/-- The Go zero value of `Message31Header`. -/
def zeroMessage31Header : Message31Header :=
  ⟨[0, 0, 0, 0], 0, 0, 0, 0, 0, 0, 0, 0, 0, 0, 0, 0, 0, 0, 0⟩

/-- Field layout of `Message31Header` (32 bytes, big-endian, packed). -/
def parseMessage31Header (s : List Nat) : Message31Header where
  RadarIdentifier := s.take 4
  CollectionTime := fld s 4 4
  CollectionDate := fld s 8 2
  AzimuthNumber := fld s 10 2
  AzimuthAngle := fldF32 s 12
  CompressionIndicator := fld s 16 1
  Spare := fld s 17 1
  RadialLength := fld s 18 2
  AzimuthResolutionSpacingCode := fld s 20 1
  RadialStatus := fld s 21 1
  ElevationNumber := fld s 22 1
  CutSectorNumber := fld s 23 1
  ElevationAngle := fldF32 s 24
  RadialSpotBlankingStatus := fld s 28 1
  AzimuthIndexingMode := fld s 29 1
  DataBlockCount := fld s 30 2

/-- `VolumeData` (`message31.go`): 40 packed bytes. -/
structure VolumeData where
  LRTUP : Nat
  VersionMajor : Nat
  VersionMinor : Nat
  Lat : ℚ
  Long : ℚ
  SiteHeight : Nat
  FeedhornHeight : Nat
  CalibrationConstant : ℚ
  SHVTXPowerHor : ℚ
  SHVTXPowerVer : ℚ
  SystemDifferentialReflectivity : ℚ
  InitialSystemDifferentialPhase : ℚ
  VolumeCoveragePatternNumber : Nat
  ProcessingStatus : Nat
  deriving DecidableEq

/-- The Go zero value of `VolumeData`. -/
def zeroVolumeData : VolumeData :=
  ⟨0, 0, 0, 0, 0, 0, 0, 0, 0, 0, 0, 0, 0, 0⟩

/-- Field layout of `VolumeData` (40 bytes, big-endian, packed). -/
def parseVolumeData (s : List Nat) : VolumeData where
  LRTUP := fld s 0 2
  VersionMajor := fld s 2 1
  VersionMinor := fld s 3 1
  Lat := fldF32 s 4
  Long := fldF32 s 8
  SiteHeight := fld s 12 2
  FeedhornHeight := fld s 14 2
  CalibrationConstant := fldF32 s 16
  SHVTXPowerHor := fldF32 s 20
  SHVTXPowerVer := fldF32 s 24
  SystemDifferentialReflectivity := fldF32 s 28
  InitialSystemDifferentialPhase := fldF32 s 32
  VolumeCoveragePatternNumber := fld s 36 2
  ProcessingStatus := fld s 38 2

/-- `ElevationData` (`message31.go`): 8 packed bytes
(`ATMOS` is kept as its 2 raw bytes, big-endian recombined). -/
structure ElevationData where
  LRTUP : Nat
  ATMOS : Nat
  CalibConst : ℚ
  deriving DecidableEq

/-- The Go zero value of `ElevationData`. -/
def zeroElevationData : ElevationData := ⟨0, 0, 0⟩

/-- Field layout of `ElevationData` (8 bytes, big-endian, packed). -/
def parseElevationData (s : List Nat) : ElevationData where
  LRTUP := fld s 0 2
  ATMOS := fld s 2 2
  CalibConst := fldF32 s 4

/-- `RadialData` (`message31.go`): 24 packed bytes. -/
structure RadialData where
  LRTUP : Nat
  UnambiguousRange : Nat
  NoiseLevelHorz : ℚ
  NoiseLevelVert : ℚ
  NyquistVelocity : Nat
  Spares : Nat
  CalibConstHorzChan : ℚ
  CalibConstVertChan : ℚ
  deriving DecidableEq

/-- The Go zero value of `RadialData`. -/
def zeroRadialData : RadialData := ⟨0, 0, 0, 0, 0, 0, 0, 0⟩

/-- Field layout of `RadialData` (24 bytes, big-endian, packed). -/
def parseRadialData (s : List Nat) : RadialData where
  LRTUP := fld s 0 2
  UnambiguousRange := fld s 2 2
  NoiseLevelHorz := fldF32 s 4
  NoiseLevelVert := fldF32 s 8
  NyquistVelocity := fld s 12 2
  Spares := fld s 14 2
  CalibConstHorzChan := fldF32 s 16
  CalibConstVertChan := fldF32 s 20

/-- `Message31` (`message31.go`): header plus the block slots.  In Go the
moment slots are value fields, zero-valued until a block fills them. -/
structure Message31 where
  Header : Message31Header
  VolumeData : VolumeData
  ElevationData : ElevationData
  RadialData : RadialData
  REFData : DataMoment
  VELData : DataMoment
  SWData : DataMoment
  ZDRData : DataMoment
  PHIData : DataMoment
  RHOData : DataMoment
  CFPData : DataMoment
  deriving DecidableEq

/-- `Message31{Header: header}`: all other fields take their Go zero value. -/
def Message31.init (header : Message31Header) : Message31 :=
  ⟨header, zeroVolumeData, zeroElevationData, zeroRadialData,
    zeroDataMoment, zeroDataMoment, zeroDataMoment, zeroDataMoment,
    zeroDataMoment, zeroDataMoment, zeroDataMoment⟩

/-- Error outcomes of the decoder.  `eof` is Go's `io.EOF`,
`unexpectedEof` is `io.ErrUnexpectedEOF`, `unknownDataBlock` carries the
3 name bytes of the offending block, `unsupportedBuild` carries the build
number of the message that failed the gate, `nilStatusPanic` is the nil
dereference of `ar2.metadataStatusMessage`, and `outOfFuel` is the
recursion bound of the embedding (never reached: each loop iteration of
`LoadLDMRecord` consumes at least 28 bytes of a stream whose length is the
initial fuel). -/
inductive DecodeErr where
  | eof
  | unexpectedEof
  | unknownDataBlock (name : List Nat)
  | unsupportedBuild (build : ℚ)
  | nilStatusPanic
  | outOfFuel
  deriving DecidableEq

/-- `pointersPerBuild` (`message31.go`): a Go `map[float32]int` holding
`{18: 9, 19: 10}`; lookup of any other key yields the zero value 0. -/
def pointersPerBuild (build : ℚ) : Nat :=
  if build = 18 then 9
  else if build = 19 then 10
  else 0

/-- The byte values of the Go string literals of the `switch` in
`NewMessage31`: a data block name is the 3 bytes after the 1-byte type. -/
def nameVOL : List Nat := [86, 79, 76]

/-- Byte values of the name `"ELV"`. -/
def nameELV : List Nat := [69, 76, 86]

/-- Byte values of the name `"RAD"`. -/
def nameRAD : List Nat := [82, 65, 68]

/-- Byte values of the name `"REF"`. -/
def nameREF : List Nat := [82, 69, 70]

/-- Byte values of the name `"VEL"`. -/
def nameVEL : List Nat := [86, 69, 76]

/-- Byte values of the name `"SW "`. -/
def nameSW : List Nat := [83, 87, 32]

/-- Byte values of the name `"ZDR"`. -/
def nameZDR : List Nat := [90, 68, 82]

/-- Byte values of the name `"PHI"`. -/
def namePHI : List Nat := [80, 72, 73]

/-- Byte values of the name `"RHO"`. -/
def nameRHO : List Nat := [82, 72, 79]

/-- Byte values of the name `"CFP"`. -/
def nameCFP : List Nat := [67, 70, 80]

/-- The inner `switch blockName` of the moment case of `NewMessage31`:
store the freshly read moment in the slot named by the block.  (The inner
switch has no default, so an unlisted name leaves the message unchanged;
the outer switch only reaches it with one of the seven moment names.) -/
def setMomentSlot (m31 : Message31) (name : List Nat) (d : DataMoment) :
    Message31 :=
  if name = nameREF then { m31 with REFData := d }
  else if name = nameVEL then { m31 with VELData := d }
  else if name = nameSW then { m31 with SWData := d }
  else if name = nameZDR then { m31 with ZDRData := d }
  else if name = namePHI then { m31 with PHIData := d }
  else if name = nameRHO then { m31 with RHOData := d }
  else if name = nameCFP then { m31 with CFPData := d }
  else m31

/-- `io.ReadFull` into a fresh zeroed buffer of length `n`, error ignored:
the buffer holds the available bytes and stays zero past them. -/
def readFullPad (n : Nat) (s : List Nat) : List Nat :=
  s.take n ++ List.replicate (n - s.length) 0

/-- The `for i := ...; i < header.DataBlockCount` loop of `NewMessage31`:
read a 4-byte `DataBlock` (checked: `io.EOF` on an empty stream,
`io.ErrUnexpectedEOF` on a short one), dispatch on the 3 name bytes, read
the block payload (unchecked `binary.Read`: a short payload leaves the
destination untouched), and recurse on the remaining count. -/
def decodeBlocks : Nat → Message31 → List Nat →
    Except DecodeErr (Message31 × List Nat)
  | 0, m31, s => .ok (m31, s)
  | c + 1, m31, s =>
    if s.length = 0 then .error .eof
    else if s.length < 4 then .error .unexpectedEof
    else
      let name := (s.take 4).drop 1
      let s1 := s.drop 4
      if name = nameVOL then
        decodeBlocks c
          { m31 with VolumeData :=
              if 40 ≤ s1.length then parseVolumeData (s1.take 40)
              else m31.VolumeData }
          (s1.drop 40)
      else if name = nameELV then
        decodeBlocks c
          { m31 with ElevationData :=
              if 8 ≤ s1.length then parseElevationData (s1.take 8)
              else m31.ElevationData }
          (s1.drop 8)
      else if name = nameRAD then
        decodeBlocks c
          { m31 with RadialData :=
              if 24 ≤ s1.length then parseRadialData (s1.take 24)
              else m31.RadialData }
          (s1.drop 24)
      else if name = nameREF ∨ name = nameVEL ∨ name = nameSW ∨
          name = nameZDR ∨ name = namePHI ∨ name = nameRHO ∨
          name = nameCFP then
        let m :=
          if 24 ≤ s1.length then parseGenericDataMoment (s1.take 24)
          else zeroGenericDataMoment
        -- uint16 arithmetic: `m.NumberDataMomentGates * uint16(m.DataWordSize) / 8`
        let dataMomentSize := m.NumberDataMomentGates * m.DataWordSize % 65536 / 8
        let data := readFullPad dataMomentSize (s1.drop 24)
        decodeBlocks c (setMomentSlot m31 name ⟨m, data⟩)
          ((s1.drop 24).drop dataMomentSize)
      else
        .error (.unknownDataBlock name)

/-- `NewMessage31` (`message31.go`): read the 32-byte header (unchecked
`binary.Read`), skip the build-dependent pointer table, then run the data
block loop.  Returns the message and the unconsumed stream. -/
def NewMessage31 (build : ℚ) (s : List Nat) :
    Except DecodeErr (Message31 × List Nat) :=
  let header :=
    if 32 ≤ s.length then parseMessage31Header (s.take 32)
    else zeroMessage31Header
  let s1 := (s.drop 32).drop (4 * pointersPerBuild build)
  decodeBlocks header.DataBlockCount (Message31.init header) s1

/-! ## `Message2`, the message header, and the message loop of
`archive2.go` -/

/-- `Message2` (RDA Status Data): 27 `uint16` fields plus 20 spare bytes —
74 packed bytes in total, which is what `binary.Read` consumes.
`Spares` is kept as its 20 raw bytes. -/
structure Message2 where
  RDAStatus : Nat
  OperabilityStatus : Nat
  ControlStatus : Nat
  AuxPowerGeneratorState : Nat
  AvgTxPower : Nat
  HorizRefCalibCorr : Nat
  DataTxEnabled : Nat
  VolumeCoveragePatternNum : Nat
  RDAControlAuth : Nat
  RDABuild : Nat
  OperationalMode : Nat
  SuperResStatus : Nat
  ClutterMitigationDecisionStatus : Nat
  AvsetStatus : Nat
  RDAAlarmSummary : Nat
  CommandAck : Nat
  ChannelControlStatus : Nat
  SpotBlankingStatus : Nat
  BypassMapGenDate : Nat
  BypassMapGenTime : Nat
  ClutterFilterMapGenDate : Nat
  ClutterFilterMapGenTime : Nat
  VertRefCalibCorr : Nat
  TransitionPwrSourceStatus : Nat
  RMSControlStatus : Nat
  PerformanceCheckStatus : Nat
  AlarmCodes : Nat
  Spares : List Nat
  deriving DecidableEq

/-- The Go zero value of `Message2`. -/
def zeroMessage2 : Message2 :=
  ⟨0, 0, 0, 0, 0, 0, 0, 0, 0, 0, 0, 0, 0, 0, 0, 0, 0, 0, 0, 0, 0, 0, 0,
    0, 0, 0, 0, []⟩

/-- Field layout of `Message2` (74 bytes, big-endian, packed). -/
def parseMessage2 (s : List Nat) : Message2 where
  RDAStatus := fld s 0 2
  OperabilityStatus := fld s 2 2
  ControlStatus := fld s 4 2
  AuxPowerGeneratorState := fld s 6 2
  AvgTxPower := fld s 8 2
  HorizRefCalibCorr := fld s 10 2
  DataTxEnabled := fld s 12 2
  VolumeCoveragePatternNum := fld s 14 2
  RDAControlAuth := fld s 16 2
  RDABuild := fld s 18 2
  OperationalMode := fld s 20 2
  SuperResStatus := fld s 22 2
  ClutterMitigationDecisionStatus := fld s 24 2
  AvsetStatus := fld s 26 2
  RDAAlarmSummary := fld s 28 2
  CommandAck := fld s 30 2
  ChannelControlStatus := fld s 32 2
  SpotBlankingStatus := fld s 34 2
  BypassMapGenDate := fld s 36 2
  BypassMapGenTime := fld s 38 2
  ClutterFilterMapGenDate := fld s 40 2
  ClutterFilterMapGenTime := fld s 42 2
  VertRefCalibCorr := fld s 44 2
  TransitionPwrSourceStatus := fld s 46 2
  RMSControlStatus := fld s 48 2
  PerformanceCheckStatus := fld s 50 2
  AlarmCodes := fld s 52 2
  Spares := (s.drop 54).take 20

/-- Modelled from the spec: `Message2.GetBuildNumber` is defined in a
repository file (the `message2.go` method set) that is not among the
provided sources; only its callers are.  The spec states
`build_number = RDABuild / 100.0`, exposed as a float — modelled here as
the exact rational quotient, written with `mkRat` (proved equal to
`(RDABuild : ℚ) / 100` below). -/
def Message2.GetBuildNumber (m : Message2) : ℚ :=
  mkRat m.RDABuild 100

/-- `MessageHeader` (16 packed bytes, the data-model file). -/
structure MessageHeader where
  MessageSize : Nat
  RDARedundantChannel : Nat
  MessageType : Nat
  IDSequenceNumber : Nat
  JulianDate : Nat
  MillisOfDay : Nat
  NumMessageSegments : Nat
  MessageSegmentNum : Nat
  deriving DecidableEq

/-- Field layout of `MessageHeader` (16 bytes, big-endian, packed). -/
def parseMessageHeader (s : List Nat) : MessageHeader where
  MessageSize := fld s 0 2
  RDARedundantChannel := fld s 2 1
  MessageType := fld s 3 1
  IDSequenceNumber := fld s 4 2
  JulianDate := fld s 6 2
  MillisOfDay := fld s 8 4
  NumMessageSegments := fld s 12 2
  MessageSegmentNum := fld s 14 2

/-- `LegacyCTMHeaderLength` (data-model file). -/
def LegacyCTMHeaderLength : Nat := 12

/-- `DefaultMetadataRecordLength` (data-model file). -/
def DefaultMetadataRecordLength : Nat := 2432

/-- The unchecked 74-byte `binary.Read` of the Message 2 body: a full read
decodes it, a short read leaves the zero value. -/
def readMessage2Body (s : List Nat) : Message2 :=
  if 74 ≤ s.length then parseMessage2 (s.take 74) else zeroMessage2

/-- What one iteration of the message loop of `LoadLDMRecord` contributes
to the loaded record. -/
inductive MsgOut where
  | m2 (m : Message2)
  | m31 (m : Message31)
  | skip
  deriving DecidableEq

/-- Outcome of one iteration of the message loop of `LoadLDMRecord`. -/
inductive LdmStep where
  | brk
  | err (e : DecodeErr)
  | msg (o : MsgOut) (rest : List Nat)
  deriving DecidableEq

/-- One iteration of the `for true` message loop of `LoadLDMRecord`
(`archive2.go`): discard 12 CTM bytes (error ignored), read the 16-byte
`MessageHeader` (clean `io.EOF` breaks the loop, a short read is an
error), then dispatch on the message type:

* type 2: unchecked 74-byte body read, build gate
  (`GetBuildNumber() < 18` fails the record), then discard
  `DefaultMetadataRecordLength - LegacyCTMHeaderLength - 16 - 68` bytes;
* type 31: `NewMessage31` with the build of `ar2.metadataStatusMessage`
  (a nil status is a nil-pointer dereference in Go, modelled as an
  error), no trailing padding;
* anything else: discard
  `DefaultMetadataRecordLength - LegacyCTMHeaderLength - 16` bytes. -/
def ldmStep (status : Option Message2) (s : List Nat) : LdmStep :=
  let s1 := s.drop 12
  if s1.length = 0 then .brk
  else if s1.length < 16 then .err .unexpectedEof
  else
    let header := parseMessageHeader (s1.take 16)
    let s2 := s1.drop 16
    if header.MessageType = 2 then
      let m2 := readMessage2Body s2
      if m2.GetBuildNumber < 18 then .err (.unsupportedBuild m2.GetBuildNumber)
      else
        .msg (.m2 m2)
          ((s2.drop 74).drop
            (DefaultMetadataRecordLength - LegacyCTMHeaderLength - 16 - 68))
    else if header.MessageType = 31 then
      match status with
      | none => .err .nilStatusPanic
      | some st =>
        match NewMessage31 st.GetBuildNumber s2 with
        | .error e => .err e
        | .ok (m, rest) => .msg (.m31 m) rest
    else
      .msg .skip
        (s2.drop (DefaultMetadataRecordLength - LegacyCTMHeaderLength - 16))

/-- `LoadedLDMRecord` (`archive2.go`): the LDM size word plus the messages
found in the record.  (On the error paths the Go function also returns the
partially loaded record, but every caller discards it, so the embedding
tracks only the error.) -/
structure LoadedLDMRecord where
  Size : Int
  M2 : Option Message2
  M31s : List Message31
  deriving DecidableEq

/-- Merge one loop iteration's contribution into the record under
construction.  The type-2 case of `LoadLDMRecord` assigns
`loadedRecord.M2` unconditionally, so a later Message 2 in the same record
replaces an earlier one. -/
def applyMsgOut (acc : LoadedLDMRecord) : MsgOut → LoadedLDMRecord
  | .m2 m => { acc with M2 := some m }
  | .m31 m => { acc with M31s := acc.M31s ++ [m] }
  | .skip => acc

/-- The message loop of `LoadLDMRecord`, run on the decompressed stream.
`fuel` is the structural recursion bound of the embedding;
`LoadLDMRecord` supplies `s.length + 1`, which is never exhausted because
every `.msg` step consumes at least 28 bytes. -/
def loadMessagesF : Nat → Option Message2 → List Nat → LoadedLDMRecord →
    LoadedLDMRecord × Option DecodeErr
  | 0, _, _, acc => (acc, some .outOfFuel)
  | fuel + 1, status, s, acc =>
    match ldmStep status s with
    | .brk => (acc, none)
    | .err e => (acc, some e)
    | .msg o rest => loadMessagesF fuel status rest (applyMsgOut acc o)

/-- Two's-complement wrap of an `Int` into `[-2^31, 2^31)` — the value a
Go `int32` assignment stores. -/
def wrap32 (x : Int) : Int :=
  (x + 2 ^ 31) % 2 ^ 32 - 2 ^ 31

/-- The size stored by `LoadLDMRecord`:
`if ldm.Size < 0 { ldm.Size = -ldm.Size }` with Go `int32` negation. -/
def storedSize (w : Int) : Int :=
  if w < 0 then wrap32 (-w) else w

/-- The outer stream, with bzip2 abstracted: one LDM record is its `int32`
size word together with the bytes its compressed body decompresses to. -/
structure RawLDM where
  sizeWord : Int
  inner : List Nat

/-- `LoadLDMRecord` (`archive2.go`) past the size-word read: store the
negated size, feed `io.LimitReader(reader, size)` through the bzip2
reader (a bound of `≤ 0` bytes decompresses to nothing), and run the
message loop.  `status` is `ar2.metadataStatusMessage` at entry. -/
def LoadLDMRecord (status : Option Message2) (sizeWord : Int)
    (inner : List Nat) : LoadedLDMRecord × Option DecodeErr :=
  let sz := storedSize sizeWord
  let body := if sz ≤ 0 then [] else inner
  loadMessagesF (body.length + 1) status body ⟨sz, none, []⟩

/-- `Archive2` (`archive2.go`): the fields the sequential decode touches.
`ElevationScans` is the Go map, as a total function with `[]` for absent
keys. -/
structure Archive2 where
  LDMOffsets : List Int
  LDMRecords : List LoadedLDMRecord
  ElevationScans : Nat → List Message31
  metadataStatusMessage : Option Message2

/-- The loop body of `AddFromLDMRecord`: append one Message 31 to its
elevation's scan list. -/
def addScan (a : Archive2) (m : Message31) : Archive2 :=
  { a with ElevationScans := fun k =>
      if k = m.Header.ElevationNumber then
        a.ElevationScans m.Header.ElevationNumber ++ [m]
      else a.ElevationScans k }

/-- `AddFromLDMRecord` (`archive2.go`): keep the record's Message 2 only
when no status is held yet, then append each Message 31 to its elevation's
scan list. -/
def AddFromLDMRecord (ar2 : Archive2) (rec : LoadedLDMRecord) : Archive2 :=
  let ar2' :=
    if rec.M2.isSome ∧ ar2.metadataStatusMessage.isNone then
      { ar2 with metadataStatusMessage := rec.M2 }
    else ar2
  rec.M31s.foldl addScan ar2'

/-- The `for true` LDM loop of `NewArchive2`: load a record (end of the
outer list is the clean `io.EOF` of the size-word read; an inner `io.EOF`
surfaced by `LoadLDMRecord` also breaks the loop), append the offset,
advance it by `Size + 4`, append the record, and merge it. -/
def NewArchive2Go : List RawLDM → Archive2 → Int → Except DecodeErr Archive2
  | [], ar2, _ => .ok ar2
  | r :: rs, ar2, offset =>
    match LoadLDMRecord ar2.metadataStatusMessage r.sizeWord r.inner with
    | (_, some .eof) => .ok ar2
    | (_, some e) => .error e
    | (rec, none) =>
      NewArchive2Go rs
        (AddFromLDMRecord
          { ar2 with
            LDMOffsets := ar2.LDMOffsets ++ [offset]
            LDMRecords := ar2.LDMRecords ++ [rec] }
          rec)
        (offset + rec.Size + 4)

/-- `NewArchive2` (`archive2.go`): after the 24-byte volume header the
offset tally starts at 24; then the LDM loop runs on the rest of the
stream. -/
def NewArchive2 (input : List RawLDM) : Except DecodeErr Archive2 :=
  NewArchive2Go input ⟨[], [], fun _ => [], none⟩ 24

/-! ## Concrete streams and spec-level predicates used by the theorems -/

/-- A 16-byte `MessageHeader` stream whose `MessageType` byte (offset 3)
is `t` and whose other fields are zero. -/
def hdr16ty (t : Nat) : List Nat := [0, 0, 0, t] ++ List.replicate 12 0

/-- A 74-byte Message 2 body whose `RDABuild` field (offset 18) is `b`
and whose other fields are zero. -/
def body74 (b : Nat) : List Nat :=
  List.replicate 18 0 ++ [b / 256, b % 256] ++ List.replicate 54 0

/-- One full type-2 message as the message loop consumes it: 12 CTM bytes,
the 16-byte header, the 74-byte body, and the 2336 padding bytes. -/
def msg2slot (b : Nat) : List Nat :=
  List.replicate 12 0 ++ hdr16ty 2 ++ body74 b ++ List.replicate 2336 0

/-- A 32-byte `Message31Header` stream whose `DataBlockCount` (offset 30)
is `c` and whose other fields are zero. -/
def hdr32cnt (c : Nat) : List Nat :=
  List.replicate 30 0 ++ [c / 256, c % 256]

/-- A 24-byte `GenericDataMoment` stream with the given
`NumberDataMomentGates` (offset 4) and `DataWordSize` (offset 15), other
fields zero. -/
def gdm24 (gates word : Nat) : List Nat :=
  [0, 0, 0, 0, gates / 256, gates % 256, 0, 0, 0, 0, 0, 0, 0, 0, 0, word] ++
    List.replicate 8 0

/-- The ten data block names the `switch` of `NewMessage31` recognizes. -/
def recognizedNames : List (List Nat) :=
  [nameVOL, nameELV, nameRAD, nameREF, nameVEL, nameSW, nameZDR, namePHI,
    nameRHO, nameCFP]

/-- A moment slot whose `Data` length matches the size `NewMessage31`
computes from its header in `uint16` arithmetic. -/
def momentLenOk (d : DataMoment) : Prop :=
  d.Data.length =
    d.GenericDataMoment.NumberDataMomentGates *
      d.GenericDataMoment.DataWordSize % 65536 / 8

/-- All seven moment slots of a message satisfy `momentLenOk`. -/
def momentInv (m : Message31) : Prop :=
  momentLenOk m.REFData ∧ momentLenOk m.VELData ∧ momentLenOk m.SWData ∧
    momentLenOk m.ZDRData ∧ momentLenOk m.PHIData ∧ momentLenOk m.RHOData ∧
    momentLenOk m.CFPData

/-- The offset list `NewArchive2` builds for a given record list: each
record starts where the previous one ended, `Size + 4` later. -/
def offsetsSpec (start : Int) : List LoadedLDMRecord → List Int
  | [] => []
  | r :: rs => start :: offsetsSpec (start + r.Size + 4) rs

/-- The offset just past the last record of a record list. -/
def endOffset (start : Int) : List LoadedLDMRecord → Int
  | [] => start
  | r :: rs => endOffset (start + r.Size + 4) rs

/-- A 62-byte Message 31 stream: header with one data block, then a `REF`
block of 2 one-byte gates (no pointer bytes in between). -/
def c2stream : List Nat := hdr32cnt 1 ++ [68] ++ nameREF ++ gdm24 2 8 ++ [7, 9]

/-- A type-2 message slot followed by a marker byte 42: 2439 bytes. -/
def c5s : List Nat :=
  List.replicate 12 0 ++ hdr16ty 2 ++ body74 1800 ++
    List.replicate 2336 0 ++ [42]

/-- A 28-byte message prelude of type 7 (CTM bytes plus header). -/
def c5w : List Nat := List.replicate 12 0 ++ hdr16ty 7

/-- A build-18 Message 31 stream whose single `REF` block declares 4096
gates of 16 bits (the 16-bit product wraps to 0) and supplies the 8192
data bytes the unwrapped product would call for. -/
def c6stream : List Nat :=
  hdr32cnt 1 ++ List.replicate 36 0 ++ [68] ++ nameREF ++ gdm24 4096 16 ++
    List.replicate 8192 7

/-- A build-18 Message 31 stream with a single well-formed 2-gate `REF`
block. -/
def c6small : List Nat :=
  hdr32cnt 1 ++ List.replicate 36 0 ++ [68] ++ nameREF ++ gdm24 2 8 ++ [7, 9]

/-- An inner stream holding two type-2 messages, the first with
`RDABuild = 1800`, the second with `RDABuild = 1900`. -/
def c3inner : List Nat := msg2slot 1800 ++ msg2slot 1900

/-- An inner stream holding one type-2 message with `RDABuild = 1800`. -/
def c4inner : List Nat := msg2slot 1800

/-- A 28-byte inner stream holding one message of type 7 (skipped). -/
def c8skipInner : List Nat := List.replicate 12 0 ++ hdr16ty 7

/-- The `DataMoment` of spec scenario 6: offset 2, scale 2, raw bytes
`[0, 1, 2, 100]`. -/
def c1moment : DataMoment :=
  ⟨⟨0, 0, 0, 0, 0, 0, 0, 0, 2, 2⟩, [0, 1, 2, 100]⟩

/-! ## Shared lemmas -/

/-- `readFullPad` always yields a buffer of the requested length
(`io.ReadFull` fills what it can and the rest of the fresh buffer stays
zero). -/
theorem length_readFullPad (n : Nat) (s : List Nat) :
    (readFullPad n s).length = n := by
  simp only [readFullPad, List.length_append, List.length_take,
    List.length_replicate]
  omega

/-- `hdr16ty` is 16 bytes long. -/
theorem length_hdr16ty (t : Nat) : (hdr16ty t).length = 16 := by
  simp only [hdr16ty, List.length_append, List.length_replicate,
    List.length_cons, List.length_nil]

/-- `body74` is 74 bytes long. -/
theorem length_body74 (b : Nat) : (body74 b).length = 74 := by
  simp only [body74, List.length_append, List.length_replicate,
    List.length_cons, List.length_nil]

/-- `msg2slot` is 2438 bytes long. -/
theorem length_msg2slot (b : Nat) : (msg2slot b).length = 2438 := by
  simp only [msg2slot, List.length_append, List.length_replicate,
    length_hdr16ty, length_body74]

/-- `hdr32cnt` is 32 bytes long. -/
theorem length_hdr32cnt (c : Nat) : (hdr32cnt c).length = 32 := by
  simp only [hdr32cnt, List.length_append, List.length_replicate,
    List.length_cons, List.length_nil]

/-- `gdm24` is 24 bytes long. -/
theorem length_gdm24 (gates word : Nat) : (gdm24 gates word).length = 24 := by
  simp only [gdm24, List.length_append, List.length_replicate,
    List.length_cons, List.length_nil]

/-- `GetBuildNumber` is the spec's quotient `RDABuild / 100.0`. -/
theorem getBuildNumber_eq_div (m : Message2) :
    m.GetBuildNumber = (m.RDABuild : ℚ) / 100 := by
  unfold Message2.GetBuildNumber
  rw [Rat.mkRat_eq_divInt, Rat.divInt_eq_div]
  norm_num

/-! ## C1: per-sample scaling -/

/-- C1: `ScaledData` maps each packed sample independently: 0 to the
sentinel 999, 1 to the sentinel 998, and any other sample `n` to
`(n - Offset) / Scale`, except that a zero `Scale` returns `n` itself. -/
theorem scaledData_per_sample (d : DataMoment) (i : Nat)
    (h : i < d.Data.length) :
    d.ScaledData.get ⟨i, by simpa [DataMoment.ScaledData] using h⟩ =
      if d.Data.get ⟨i, h⟩ = 0 then 999
      else if d.Data.get ⟨i, h⟩ = 1 then 998
      else if d.GenericDataMoment.Scale = 0 then (d.Data.get ⟨i, h⟩ : ℚ)
      else ((d.Data.get ⟨i, h⟩ : ℚ) - d.GenericDataMoment.Offset) /
        d.GenericDataMoment.Scale := by
  simp only [DataMoment.ScaledData, List.get_eq_getElem, List.getElem_map,
    MomentDataBelowThreshold, MomentDataFolded, scaleUint]

/-- Witness for C1 at spec scenario 6: byte 100 with offset 2 and scale 2
scales to 49. -/
theorem scaledData_per_sample_witness :
    c1moment.ScaledData.get ⟨3, by decide⟩ = 49 := by
  exact (scaledData_per_sample c1moment 3 (by decide)).trans
    (by norm_num [c1moment])

/-! ## C10: one output per stored byte -/

/-- C10: `ScaledData` yields exactly one value per byte of `Data`,
whatever `DataWordSize` says. -/
theorem scaledData_length (d : DataMoment) :
    d.ScaledData.length = d.Data.length := by
  simp [DataMoment.ScaledData]

/-! ## C7: unknown data block names -/

/-- C7: whenever the data block loop of `NewMessage31` still has blocks to
read and the 3 name bytes of the next block are outside the recognized
set, decoding fails with `UnknownDataBlock` carrying that name and no
message is returned. -/
theorem decodeBlocks_unknown_name (c : Nat) (m31 : Message31)
    (s : List Nat) (hc : 0 < c) (h4 : 4 ≤ s.length)
    (hn : ¬ (s.take 4).drop 1 ∈ recognizedNames) :
    decodeBlocks c m31 s = .error (.unknownDataBlock ((s.take 4).drop 1)) := by
  obtain ⟨c, rfl⟩ : ∃ k, c = k + 1 := ⟨c - 1, by omega⟩
  simp only [recognizedNames, List.mem_cons, List.not_mem_nil, or_false,
    not_or] at hn
  obtain ⟨h1, h2, h3, h4', h5, h6, h7, h8, h9, h10⟩ := hn
  simp only [decodeBlocks]
  rw [if_neg (by omega), if_neg (by omega), if_neg h1, if_neg h2, if_neg h3,
    if_neg (by push_neg; exact ⟨h4', h5, h6, h7, h8, h9, h10⟩)]

/-- Witness for C7: a block named `"FOO"` fails with
`UnknownDataBlock("FOO")`. -/
theorem decodeBlocks_unknown_name_witness :
    decodeBlocks 1 (Message31.init zeroMessage31Header) [0, 70, 79, 79] =
      .error (.unknownDataBlock [70, 79, 79]) :=
  decodeBlocks_unknown_name 1 (Message31.init zeroMessage31Header)
    [0, 70, 79, 79] (by decide) (by decide) (by decide)

/-! ## Framing lemmas for the message loop -/

/-- An empty stream breaks the message loop cleanly. -/
theorem ldmStep_nil (st : Option Message2) : ldmStep st [] = .brk := rfl

/-- A type-2 message that passes the build gate consumes
12 + 16 + 74 + 2336 = 2438 bytes. -/
theorem ldmStep_type2 (st : Option Message2) (s : List Nat)
    (h16 : 16 ≤ (s.drop 12).length)
    (ht : (parseMessageHeader ((s.drop 12).take 16)).MessageType = 2)
    (hb : ¬ (readMessage2Body ((s.drop 12).drop 16)).GetBuildNumber < 18) :
    ldmStep st s =
      .msg (.m2 (readMessage2Body ((s.drop 12).drop 16))) (s.drop 2438) := by
  simp only [ldmStep]
  rw [if_neg (by omega), if_neg (by omega), ht, if_pos rfl, if_neg hb]
  simp only [DefaultMetadataRecordLength, LegacyCTMHeaderLength,
    List.drop_drop]

/-- A type-2 message whose body fails the build gate makes the loop step
error with `unsupportedBuild` carrying that build number. -/
theorem ldmStep_type2_gate (st : Option Message2) (s : List Nat)
    (h16 : 16 ≤ (s.drop 12).length)
    (ht : (parseMessageHeader ((s.drop 12).take 16)).MessageType = 2)
    (hb : (readMessage2Body ((s.drop 12).drop 16)).GetBuildNumber < 18) :
    ldmStep st s = .err (.unsupportedBuild
      ((readMessage2Body ((s.drop 12).drop 16)).GetBuildNumber)) := by
  simp only [ldmStep]
  rw [if_neg (by omega), if_neg (by omega), ht, if_pos rfl, if_pos hb]

/-- A message of a type other than 2 and 31 consumes
12 + 16 + 2404 = 2432 bytes. -/
theorem ldmStep_default (st : Option Message2) (s : List Nat)
    (h16 : 16 ≤ (s.drop 12).length)
    (ht2 : (parseMessageHeader ((s.drop 12).take 16)).MessageType ≠ 2)
    (ht31 : (parseMessageHeader ((s.drop 12).take 16)).MessageType ≠ 31) :
    ldmStep st s = .msg .skip (s.drop 2432) := by
  simp only [ldmStep]
  rw [if_neg (by omega), if_neg (by omega), if_neg ht2, if_neg ht31]
  simp only [DefaultMetadataRecordLength, LegacyCTMHeaderLength,
    List.drop_drop]

/-- A type-31 message hands the stream after its header to `NewMessage31`
and applies no trailing padding: the loop resumes exactly at the rest
returned by `NewMessage31`. -/
theorem ldmStep_m31 (stm : Message2) (s : List Nat) (m : Message31)
    (rest : List Nat) (h16 : 16 ≤ (s.drop 12).length)
    (ht : (parseMessageHeader ((s.drop 12).take 16)).MessageType = 31)
    (hok : NewMessage31 stm.GetBuildNumber ((s.drop 12).drop 16) =
      .ok (m, rest)) :
    ldmStep (some stm) s = .msg (.m31 m) rest := by
  simp only [ldmStep]
  rw [if_neg (by omega), if_neg (by omega), if_neg (by rw [ht]; omega), ht,
    if_pos rfl, hok]

/-- Unfolding one `.msg` step of the message loop. -/
theorem loadMessagesF_step (fuel : Nat) (st : Option Message2)
    (s rest : List Nat) (acc : LoadedLDMRecord) (o : MsgOut)
    (h : ldmStep st s = .msg o rest) :
    loadMessagesF (fuel + 1) st s acc =
      loadMessagesF fuel st rest (applyMsgOut acc o) := by
  simp [loadMessagesF, h]

/-- The message loop returns cleanly on a `.brk` step. -/
theorem loadMessagesF_brk (fuel : Nat) (st : Option Message2)
    (s : List Nat) (acc : LoadedLDMRecord) (h : ldmStep st s = .brk) :
    loadMessagesF (fuel + 1) st s acc = (acc, none) := by
  simp [loadMessagesF, h]

/-- The message loop surfaces the error of an `.err` step. -/
theorem loadMessagesF_err (fuel : Nat) (st : Option Message2)
    (s : List Nat) (acc : LoadedLDMRecord) (e : DecodeErr)
    (h : ldmStep st s = .err e) :
    loadMessagesF (fuel + 1) st s acc = (acc, some e) := by
  simp [loadMessagesF, h]

/-- Reading the Message 2 body off a stream that starts with a full
74-byte body parses exactly that body. -/
theorem readMessage2Body_body74 (b : Nat) (u : List Nat) :
    readMessage2Body (body74 b ++ u) = parseMessage2 (body74 b) := by
  unfold readMessage2Body
  rw [if_pos (by simp only [List.length_append, length_body74]; omega),
    List.take_left' (length_body74 b)]

/-- A full type-2 message slot that passes the build gate consumes exactly
its 2438 bytes: the loop resumes at the appended tail. -/
theorem ldmStep_msg2slot (st : Option Message2) (b : Nat) (t : List Nat)
    (hb : ¬ (parseMessage2 (body74 b)).GetBuildNumber < 18) :
    ldmStep st (msg2slot b ++ t) =
      .msg (.m2 (parseMessage2 (body74 b))) t := by
  have hs : (msg2slot b ++ t).drop 12 =
      hdr16ty 2 ++ (body74 b ++ (List.replicate 2336 0 ++ t)) := by
    simp only [msg2slot, List.append_assoc]
    exact List.drop_left' (by simp only [List.length_replicate])
  have hlen : (msg2slot b ++ t).length = 2438 + t.length := by
    simp only [List.length_append, length_msg2slot]
  have h16 : 16 ≤ ((msg2slot b ++ t).drop 12).length := by
    rw [List.length_drop, hlen]; omega
  have htake : ((msg2slot b ++ t).drop 12).take 16 = hdr16ty 2 := by
    rw [hs]; exact List.take_left' (length_hdr16ty 2)
  have hdrop : ((msg2slot b ++ t).drop 12).drop 16 =
      body74 b ++ (List.replicate 2336 0 ++ t) := by
    rw [hs]; exact List.drop_left' (length_hdr16ty 2)
  have hbody : readMessage2Body (((msg2slot b ++ t).drop 12).drop 16) =
      parseMessage2 (body74 b) := by
    rw [hdrop, readMessage2Body_body74]
  rw [ldmStep_type2 st _ h16 (by rw [htake]; decide) (by rw [hbody]; exact hb)]
  rw [hbody, List.drop_left' (length_msg2slot b)]

/-- A full type-2 message slot whose body fails the build gate makes the
loop step error with `unsupportedBuild` carrying that build number. -/
theorem ldmStep_msg2slot_gate (st : Option Message2) (b : Nat)
    (t : List Nat)
    (hb : (parseMessage2 (body74 b)).GetBuildNumber < 18) :
    ldmStep st (msg2slot b ++ t) =
      .err (.unsupportedBuild
        ((parseMessage2 (body74 b)).GetBuildNumber)) := by
  have hs : (msg2slot b ++ t).drop 12 =
      hdr16ty 2 ++ (body74 b ++ (List.replicate 2336 0 ++ t)) := by
    simp only [msg2slot, List.append_assoc]
    exact List.drop_left' (by simp only [List.length_replicate])
  have hlen : (msg2slot b ++ t).length = 2438 + t.length := by
    simp only [List.length_append, length_msg2slot]
  have h16 : 16 ≤ ((msg2slot b ++ t).drop 12).length := by
    rw [List.length_drop, hlen]; omega
  have htake : ((msg2slot b ++ t).drop 12).take 16 = hdr16ty 2 := by
    rw [hs]; exact List.take_left' (length_hdr16ty 2)
  have hdrop : ((msg2slot b ++ t).drop 12).drop 16 =
      body74 b ++ (List.replicate 2336 0 ++ t) := by
    rw [hs]; exact List.drop_left' (length_hdr16ty 2)
  have hbody : readMessage2Body (((msg2slot b ++ t).drop 12).drop 16) =
      parseMessage2 (body74 b) := by
    rw [hdrop, readMessage2Body_body74]
  rw [ldmStep_type2_gate st _ h16 (by rw [htake]; decide)
    (by rw [hbody]; exact hb), hbody]

/-! ## C5: per-message framing inside an LDM record -/

/-- C5 counterexample: a type-2 message consumes 2438 bytes, not the
12 + 16 + 68 + 2336 = 2432 the claim states — on a full 2-message slot
followed by the marker byte 42, the loop resumes at `[42]`, while the
stream at offset 2432 still holds the last 6 body-overrun bytes. -/
theorem ldmStep_counterexample_type2_size :
    ldmStep none c5s = .msg (.m2 (parseMessage2 (body74 1800))) [42] ∧
      c5s.drop 2432 = List.replicate 6 0 ++ [42] ∧
      List.replicate 6 (0 : Nat) ++ [42] ≠ [42] := by
  refine ⟨?_, ?_, by decide⟩
  · have hc : c5s = msg2slot 1800 ++ [42] := by
      simp only [c5s, msg2slot, List.append_assoc]
    rw [hc, ldmStep_msg2slot none 1800 [42] (by decide)]
  · have hshape : c5s =
        (List.replicate 12 0 ++ hdr16ty 2 ++ body74 1800) ++
          (List.replicate 2336 0 ++ [42]) := by
      simp only [c5s, List.append_assoc]
    have hplen : (List.replicate 12 (0 : Nat) ++ hdr16ty 2 ++
        body74 1800).length = 102 := by
      simp only [List.length_append, List.length_replicate, length_hdr16ty,
        length_body74]
    rw [hshape]
    rw [show (2432 : Nat) = (List.replicate 12 (0 : Nat) ++ hdr16ty 2 ++
        body74 1800).length + 2330 from by rw [hplen]]
    rw [List.drop_append]
    rw [List.drop_append_of_le_length
      (by rw [List.length_replicate]; omega)]
    rw [List.drop_replicate]

/-- C5 amended: after the 12-byte CTM discard and 16-byte header, a type-2
message reads a 74-byte body (the `Message2` struct) and discards 2336
padding bytes, resuming at offset 2438 of the message (6 bytes past the
nominal 2432 record slot); a type other than 2 and 31 discards 2404 bytes,
resuming at offset 2432; a type-31 message resumes exactly where
`NewMessage31` stopped, with no trailing padding. -/
theorem ldmStep_framing (st : Option Message2) (s : List Nat)
    (h16 : 16 ≤ (s.drop 12).length) :
    ((parseMessageHeader ((s.drop 12).take 16)).MessageType = 2 →
      ¬ (readMessage2Body ((s.drop 12).drop 16)).GetBuildNumber < 18 →
      ldmStep st s =
        .msg (.m2 (readMessage2Body ((s.drop 12).drop 16)))
          (s.drop 2438)) ∧
    ((parseMessageHeader ((s.drop 12).take 16)).MessageType ≠ 2 →
      (parseMessageHeader ((s.drop 12).take 16)).MessageType ≠ 31 →
      ldmStep st s = .msg .skip (s.drop 2432)) ∧
    (∀ stm m rest, st = some stm →
      (parseMessageHeader ((s.drop 12).take 16)).MessageType = 31 →
      NewMessage31 stm.GetBuildNumber ((s.drop 12).drop 16) =
        .ok (m, rest) →
      ldmStep st s = .msg (.m31 m) rest) := by
  refine ⟨fun ht hb => ldmStep_type2 st s h16 ht hb,
    fun ht2 ht31 => ldmStep_default st s h16 ht2 ht31,
    fun stm m rest hst ht hok => ?_⟩
  rw [hst]
  exact ldmStep_m31 stm s m rest h16 ht hok

/-- Witness for C5 at a type-7 message: the loop resumes 2432 bytes in. -/
theorem ldmStep_framing_witness :
    ldmStep none c5w = .msg .skip (c5w.drop 2432) :=
  (ldmStep_framing none c5w (by decide)).2.1 (by decide) (by decide)

/-! ## C2: build-dependent pointer table of `NewMessage31` -/

/-- C2 counterexample: at build 20 (higher than 19) the pointer lookup
misses the Go map and discards 0 pointer bytes, and the radial header is
32 bytes, not 68: a 62-byte stream — too short to even hold the claimed
68-byte header plus 40 pointer bytes — decodes completely, including a
populated `REF` moment. -/
theorem newMessage31_counterexample_build20 :
    c2stream.length = 62 ∧ pointersPerBuild 20 = 0 ∧
      ∃ m rest, NewMessage31 20 c2stream = .ok (m, rest) ∧
        m.REFData.Data = [7, 9] ∧ rest = [] := by
  refine ⟨by decide, by norm_num [pointersPerBuild], ?_⟩
  exact ⟨_, _, rfl, rfl, rfl⟩

/-- C2 amended: `NewMessage31` reads a 32-byte radial header, then
discards `4 * pointersPerBuild build` bytes, where the map holds 9
pointers for build 18 and 10 for build 19 and yields the zero value 0 for
every other build; everything decoded after the pointer table is
independent of the build. -/
theorem newMessage31_pointer_table (hdr p18 p19 rest : List Nat)
    (h1 : hdr.length = 32) (h2 : p18.length = 36) (h3 : p19.length = 40) :
    NewMessage31 18 (hdr ++ (p18 ++ rest)) =
        NewMessage31 19 (hdr ++ (p19 ++ rest)) ∧
      pointersPerBuild 18 = 9 ∧ pointersPerBuild 19 = 10 ∧
      ∀ b : ℚ, b ≠ 18 → b ≠ 19 → pointersPerBuild b = 0 := by
  refine ⟨?_, by norm_num [pointersPerBuild], by norm_num [pointersPerBuild],
    fun b hb18 hb19 => by simp [pointersPerBuild, hb18, hb19]⟩
  unfold NewMessage31
  rw [List.take_left' h1, List.take_left' h1, List.drop_left' h1,
    List.drop_left' h1]
  rw [if_pos (by simp [h1]), if_pos (by simp [h1])]
  rw [show 4 * pointersPerBuild 18 = 36 from by norm_num [pointersPerBuild],
    show 4 * pointersPerBuild 19 = 40 from by norm_num [pointersPerBuild],
    List.drop_left' h2, List.drop_left' h3]

/-- Witness for C2 amended: builds 18 and 19 agree after their pointer
tables on all-zero streams. -/
theorem newMessage31_pointer_table_witness :
    NewMessage31 18 (List.replicate 32 0 ++ (List.replicate 36 0 ++ [])) =
      NewMessage31 19 (List.replicate 32 0 ++ (List.replicate 40 0 ++ [])) :=
  (newMessage31_pointer_table (List.replicate 32 0) (List.replicate 36 0)
    (List.replicate 40 0) [] (by decide) (by decide) (by decide)).1

/-! ## C6: moment data lengths -/

/-- Storing a length-correct moment in any slot preserves the length
invariant on all seven slots. -/
theorem setMomentSlot_momentInv (m31 : Message31) (name : List Nat)
    (d : DataMoment) (h : momentInv m31) (hd : momentLenOk d) :
    momentInv (setMomentSlot m31 name d) := by
  unfold setMomentSlot
  obtain ⟨h1, h2, h3, h4, h5, h6, h7⟩ := h
  split_ifs <;> exact ⟨by assumption, by assumption, by assumption,
    by assumption, by assumption, by assumption, by assumption⟩

/-- The data block loop preserves the moment length invariant: every
moment it attaches has exactly the `uint16`-computed byte count. -/
theorem decodeBlocks_inv (c : Nat) :
    ∀ (m31 : Message31) (s : List Nat) (m' : Message31) (r : List Nat),
      momentInv m31 → decodeBlocks c m31 s = .ok (m', r) → momentInv m' := by
  induction c with
  | zero =>
    intro m31 s m' r h hok
    simp only [decodeBlocks, Except.ok.injEq, Prod.mk.injEq] at hok
    obtain ⟨rfl, rfl⟩ := hok
    exact h
  | succ c ih =>
    intro m31 s m' r h hok
    simp only [decodeBlocks] at hok
    by_cases h0 : s.length = 0
    · rw [if_pos h0] at hok; simp at hok
    rw [if_neg h0] at hok
    by_cases h4 : s.length < 4
    · rw [if_pos h4] at hok; simp at hok
    rw [if_neg h4] at hok
    by_cases hv : (s.take 4).drop 1 = nameVOL
    · rw [if_pos hv] at hok
      refine ih _ _ _ _ ?_ hok
      exact ⟨h.1, h.2.1, h.2.2.1, h.2.2.2.1, h.2.2.2.2.1,
        h.2.2.2.2.2.1, h.2.2.2.2.2.2⟩
    rw [if_neg hv] at hok
    by_cases he : (s.take 4).drop 1 = nameELV
    · rw [if_pos he] at hok
      refine ih _ _ _ _ ?_ hok
      exact ⟨h.1, h.2.1, h.2.2.1, h.2.2.2.1, h.2.2.2.2.1,
        h.2.2.2.2.2.1, h.2.2.2.2.2.2⟩
    rw [if_neg he] at hok
    by_cases hr : (s.take 4).drop 1 = nameRAD
    · rw [if_pos hr] at hok
      refine ih _ _ _ _ ?_ hok
      exact ⟨h.1, h.2.1, h.2.2.1, h.2.2.2.1, h.2.2.2.2.1,
        h.2.2.2.2.2.1, h.2.2.2.2.2.2⟩
    rw [if_neg hr] at hok
    by_cases hm : (s.take 4).drop 1 = nameREF ∨ (s.take 4).drop 1 = nameVEL ∨
        (s.take 4).drop 1 = nameSW ∨ (s.take 4).drop 1 = nameZDR ∨
        (s.take 4).drop 1 = namePHI ∨ (s.take 4).drop 1 = nameRHO ∨
        (s.take 4).drop 1 = nameCFP
    · rw [if_pos hm] at hok
      refine ih _ _ _ _ (setMomentSlot_momentInv _ _ _ h ?_) hok
      unfold momentLenOk
      exact length_readFullPad _ _
    · rw [if_neg hm] at hok
      simp at hok

/-- C6 amended: in any successfully decoded Message 31, every moment slot
carries data of exactly `num_gates * word_size % 2^16 / 8` bytes — the
product is computed in Go `uint16` arithmetic, so it wraps at 65536
rather than matching `num_gates * word_size / 8`. -/
theorem newMessage31_moment_lengths (build : ℚ) (s : List Nat)
    (m : Message31) (rest : List Nat)
    (h : NewMessage31 build s = .ok (m, rest)) : momentInv m := by
  simp only [NewMessage31] at h
  refine decodeBlocks_inv _ _ _ _ _ ?_ h
  simp [momentInv, momentLenOk, Message31.init, zeroDataMoment,
    zeroGenericDataMoment]

/-- Witness for C6 amended: a 2-gate 8-bit `REF` block carries 2 bytes. -/
theorem newMessage31_moment_lengths_witness :
    ∃ m rest, NewMessage31 18 c6small = .ok (m, rest) ∧
      momentLenOk m.REFData ∧ m.REFData.Data = [7, 9] := by
  refine ⟨_, _, rfl, ?_, rfl⟩
  exact (newMessage31_moment_lengths 18 c6small _ _ rfl).1

/-- Evaluation of the block loop on a single `REF` block declaring 4096
gates of 16 bits: the `uint16` product wraps to 0, so the attached data is
empty and the rest of the stream is left untouched. -/
theorem decodeBlocks_ref_4096 (m31 : Message31) (rest : List Nat) :
    decodeBlocks 1 m31 ([68] ++ (nameREF ++ (gdm24 4096 16 ++ rest))) =
      .ok (setMomentSlot m31 nameREF
        ⟨parseGenericDataMoment (gdm24 4096 16), []⟩, rest) := by
  rw [show (1 : Nat) = 0 + 1 from rfl]
  simp only [decodeBlocks]
  have hname :
      ((([68] ++ (nameREF ++ (gdm24 4096 16 ++ rest))).take 4).drop 1)
      = nameREF := rfl
  have hs1 : ([68] ++ (nameREF ++ (gdm24 4096 16 ++ rest))).drop 4 =
      gdm24 4096 16 ++ rest := rfl
  rw [hname, hs1]
  rw [if_neg (by simp only [List.length_append, List.length_cons,
      List.length_nil, length_gdm24, nameREF]; omega),
    if_neg (by simp only [List.length_append, List.length_cons,
      List.length_nil, length_gdm24, nameREF]; omega),
    if_neg (by decide), if_neg (by decide), if_neg (by decide),
    if_pos (Or.inl rfl)]
  rw [if_pos (by simp only [List.length_append, length_gdm24]; omega),
    List.take_left' (length_gdm24 4096 16),
    List.drop_left' (length_gdm24 4096 16)]
  rw [show (parseGenericDataMoment (gdm24 4096 16)).NumberDataMomentGates *
      (parseGenericDataMoment (gdm24 4096 16)).DataWordSize % 65536 / 8 =
      0 from by decide]
  rw [show readFullPad 0 rest = [] from by
      simp only [readFullPad, List.take_zero, Nat.zero_sub,
        List.replicate_zero, List.append_nil],
    List.drop_zero]

/-- C6 counterexample: a `REF` block declaring 4096 gates of 16 bits gets
an empty data array — the `uint16` product `4096 * 16` wraps to 0 — even
though the stream supplies the 8192 bytes the claimed length
`num_gates * word_size / 8` calls for. -/
theorem newMessage31_counterexample_uint16_wrap :
    (∃ m, NewMessage31 18 c6stream = .ok (m, List.replicate 8192 7) ∧
      m.REFData.GenericDataMoment.NumberDataMomentGates = 4096 ∧
      m.REFData.GenericDataMoment.DataWordSize = 16 ∧
      m.REFData.Data.length = 0) ∧
    4096 * 16 / 8 = 8192 ∧ (0 : Nat) ≠ 8192 := by
  refine ⟨?_, by norm_num, by norm_num⟩
  refine ⟨setMomentSlot
    (Message31.init (parseMessage31Header (hdr32cnt 1))) nameREF
    ⟨parseGenericDataMoment (gdm24 4096 16), []⟩, ?_,
    by decide, by decide, by decide⟩
  simp only [NewMessage31, c6stream, List.append_assoc]
  rw [if_pos (by simp only [List.length_append, length_hdr32cnt]; omega),
    List.take_left' (length_hdr32cnt 1),
    List.drop_left' (length_hdr32cnt 1),
    show (4 : Nat) * pointersPerBuild 18 = 36 from by
      norm_num [pointersPerBuild],
    List.drop_left' (by simp only [List.length_replicate] :
      (List.replicate 36 (0 : Nat)).length = 36),
    show (parseMessage31Header (hdr32cnt 1)).DataBlockCount = 1 from by
      decide,
    decodeBlocks_ref_4096]

/-! ## C4: the build gate -/

/-- A Message 2 emitted by a loop step passed the build gate. -/
theorem ldmStep_m2_gate (status : Option Message2) (s : List Nat)
    (m : Message2) (rest : List Nat)
    (h : ldmStep status s = .msg (.m2 m) rest) :
    ¬ m.GetBuildNumber < 18 := by
  simp only [ldmStep] at h
  by_cases h0 : (s.drop 12).length = 0
  · rw [if_pos h0] at h; simp at h
  rw [if_neg h0] at h
  by_cases h16 : (s.drop 12).length < 16
  · rw [if_pos h16] at h; simp at h
  rw [if_neg h16] at h
  by_cases ht2 : (parseMessageHeader ((s.drop 12).take 16)).MessageType = 2
  · rw [if_pos ht2] at h
    by_cases hb :
        (readMessage2Body ((s.drop 12).drop 16)).GetBuildNumber < 18
    · rw [if_pos hb] at h; simp at h
    · rw [if_neg hb] at h
      simp only [LdmStep.msg.injEq, MsgOut.m2.injEq] at h
      rwa [h.1] at hb
  rw [if_neg ht2] at h
  by_cases ht31 : (parseMessageHeader ((s.drop 12).take 16)).MessageType = 31
  · rw [if_pos ht31] at h
    cases status with
    | none => simp at h
    | some st =>
      have h2 : (match NewMessage31 st.GetBuildNumber
            ((s.drop 12).drop 16) with
          | Except.error e => LdmStep.err e
          | Except.ok (m, rest) => LdmStep.msg (MsgOut.m31 m) rest) =
          LdmStep.msg (MsgOut.m2 m) rest := h
      cases hN : NewMessage31 st.GetBuildNumber ((s.drop 12).drop 16) with
      | error e => rw [hN] at h2; simp at h2
      | ok p =>
        obtain ⟨m31, r⟩ := p
        rw [hN] at h2
        simp at h2
  · rw [if_neg ht31] at h; simp at h

/-- Any Message 2 newly installed in the record by the message loop passed
the build gate. -/
theorem loadMessagesF_m2_build (fuel : Nat) :
    ∀ (st : Option Message2) (s : List Nat) (acc acc' : LoadedLDMRecord),
      loadMessagesF fuel st s acc = (acc', none) →
      ∀ m, acc'.M2 = some m → acc.M2 = some m ∨ ¬ m.GetBuildNumber < 18 := by
  induction fuel with
  | zero =>
    intro st s acc acc' h m hm
    simp only [loadMessagesF, Prod.mk.injEq] at h
    exact absurd h.2 (by simp)
  | succ f ih =>
    intro st s acc acc' h m hm
    simp only [loadMessagesF] at h
    cases hstep : ldmStep st s with
    | brk =>
      rw [hstep] at h
      simp only [Prod.mk.injEq] at h
      obtain ⟨rfl, -⟩ := h
      exact Or.inl hm
    | err e =>
      rw [hstep] at h
      simp only [Prod.mk.injEq] at h
      exact absurd h.2 (by simp)
    | msg o rest =>
      rw [hstep] at h
      rcases ih st rest (applyMsgOut acc o) acc' h m hm with hL | hR
      · cases o with
        | m2 m0 =>
          simp only [applyMsgOut, Option.some.injEq] at hL
          refine Or.inr ?_
          have := ldmStep_m2_gate st s m0 rest hstep
          rwa [hL] at this
        | m31 m31v => exact Or.inl hL
        | skip => exact Or.inl hL
      · exact Or.inr hR

/-- `addScan` leaves the status slot unchanged, so folding it does too. -/
theorem foldl_addScan_meta (l : List Message31) :
    ∀ a : Archive2,
      (l.foldl addScan a).metadataStatusMessage = a.metadataStatusMessage := by
  induction l with
  | nil => intro a; rfl
  | cons x xs ih => intro a; rw [List.foldl_cons, ih]; rfl

/-- `addScan` leaves the offset list unchanged, so folding it does too. -/
theorem foldl_addScan_offsets (l : List Message31) :
    ∀ a : Archive2, (l.foldl addScan a).LDMOffsets = a.LDMOffsets := by
  induction l with
  | nil => intro a; rfl
  | cons x xs ih => intro a; rw [List.foldl_cons, ih]; rfl

/-- `addScan` leaves the record list unchanged, so folding it does too. -/
theorem foldl_addScan_records (l : List Message31) :
    ∀ a : Archive2, (l.foldl addScan a).LDMRecords = a.LDMRecords := by
  induction l with
  | nil => intro a; rfl
  | cons x xs ih => intro a; rw [List.foldl_cons, ih]; rfl

/-- The status slot after a merge: the record's Message 2 if the slot was
empty and the record held one, otherwise unchanged. -/
theorem addFrom_metadata (ar2 : Archive2) (rec : LoadedLDMRecord) :
    (AddFromLDMRecord ar2 rec).metadataStatusMessage =
      if rec.M2.isSome ∧ ar2.metadataStatusMessage.isNone then rec.M2
      else ar2.metadataStatusMessage := by
  simp only [AddFromLDMRecord, foldl_addScan_meta]
  split <;> rfl

/-- Merging never touches the offset list. -/
theorem addFrom_offsets (ar2 : Archive2) (rec : LoadedLDMRecord) :
    (AddFromLDMRecord ar2 rec).LDMOffsets = ar2.LDMOffsets := by
  simp only [AddFromLDMRecord, foldl_addScan_offsets]
  split <;> rfl

/-- Merging never touches the record list. -/
theorem addFrom_records (ar2 : Archive2) (rec : LoadedLDMRecord) :
    (AddFromLDMRecord ar2 rec).LDMRecords = ar2.LDMRecords := by
  simp only [AddFromLDMRecord, foldl_addScan_records]
  split <;> rfl

/-- Through the whole LDM loop, any stored status passed the build gate. -/
theorem newArchive2Go_build (rs : List RawLDM) :
    ∀ (ar2 : Archive2) (off : Int) (out : Archive2),
      (∀ m, ar2.metadataStatusMessage = some m → ¬ m.GetBuildNumber < 18) →
      NewArchive2Go rs ar2 off = .ok out →
      ∀ m, out.metadataStatusMessage = some m → ¬ m.GetBuildNumber < 18 := by
  induction rs with
  | nil =>
    intro ar2 off out hinv h m hm
    simp only [NewArchive2Go, Except.ok.injEq] at h
    subst h
    exact hinv m hm
  | cons r rs ih =>
    intro ar2 off out hinv h m hm
    simp only [NewArchive2Go] at h
    cases hL : LoadLDMRecord ar2.metadataStatusMessage r.sizeWord r.inner with
    | mk rec err =>
      rw [hL] at h
      cases err with
      | none =>
        refine ih _ _ _ ?_ h m hm
        intro m2 hm2
        rw [addFrom_metadata] at hm2
        split at hm2
        · simp only [LoadLDMRecord] at hL
          rcases loadMessagesF_m2_build _ _ _ _ _ hL m2 hm2 with hx | hx
          · exact absurd hx (by simp)
          · exact hx
        · exact hinv m2 hm2
      | some e =>
        cases e with
        | eof =>
          simp only [Except.ok.injEq] at h
          subst h
          exact hinv m hm
        | unexpectedEof => simp at h
        | unknownDataBlock name => simp at h
        | unsupportedBuild b => simp at h
        | nilStatusPanic => simp at h
        | outOfFuel => simp at h

/-- C4: a Message 2 reporting `RDABuild / 100 < 18` fails the build gate:
for every volume stream whose first LDM record opens with such a type-2
message (the slot that would be retained), `NewArchive2` returns
`.error (.unsupportedBuild build)` and no volume; and conversely every
volume that IS returned holds a retained status with build at least 18. -/
theorem newArchive2_build_gate :
    (∀ (w : Int) (b : Nat) (t : List Nat) (rs : List RawLDM),
      0 < storedSize w →
      (parseMessage2 (body74 b)).GetBuildNumber < 18 →
      NewArchive2 (⟨w, msg2slot b ++ t⟩ :: rs) =
        .error (.unsupportedBuild
          ((parseMessage2 (body74 b)).GetBuildNumber))) ∧
    (∀ (input : List RawLDM) (ar2 : Archive2) (m2 : Message2),
      NewArchive2 input = .ok ar2 →
      ar2.metadataStatusMessage = some m2 → 18 ≤ m2.GetBuildNumber) := by
  constructor
  · intro w b t rs hw hb
    have hL : LoadLDMRecord none w (msg2slot b ++ t) =
        (⟨storedSize w, none, []⟩, some (.unsupportedBuild
          ((parseMessage2 (body74 b)).GetBuildNumber))) := by
      simp only [LoadLDMRecord]
      rw [if_neg (by omega),
        loadMessagesF_err _ _ _ _ _ (ldmStep_msg2slot_gate none b t hb)]
    simp only [NewArchive2, NewArchive2Go, hL]
  · intro input ar2 m2 h hm
    refine not_lt.1 (newArchive2Go_build input _ 24 ar2 ?_ h m2 hm)
    intro m hx
    exact absurd hx (by simp)

/-- Witness for C4: a volume whose metadata Message 2 has
`RDABuild = 1700` (build 17) fails with `unsupportedBuild`, while one with
`RDABuild = 1800` decodes, stores it, and its build number is at least
18. -/
theorem newArchive2_build_gate_witness :
    NewArchive2 [⟨3000, msg2slot 1700 ++ []⟩] =
        .error (.unsupportedBuild
          ((parseMessage2 (body74 1700)).GetBuildNumber)) ∧
      (parseMessage2 (body74 1700)).GetBuildNumber < 18 ∧
      ∃ a, NewArchive2 [⟨3000, c4inner⟩] = .ok a ∧
        a.metadataStatusMessage = some (parseMessage2 (body74 1800)) ∧
        18 ≤ (parseMessage2 (body74 1800)).GetBuildNumber := by
  refine ⟨newArchive2_build_gate.1 3000 1700 [] [] (by decide) (by decide),
    by decide, ?_⟩
  have hL : LoadLDMRecord none 3000 c4inner =
      (⟨3000, some (parseMessage2 (body74 1800)), []⟩, none) := by
    simp only [LoadLDMRecord, c4inner]
    rw [show storedSize 3000 = (3000 : Int) from by decide,
      if_neg (by norm_num), length_msg2slot,
      show msg2slot 1800 = msg2slot 1800 ++ ([] : List Nat) from
        (List.append_nil _).symm,
      loadMessagesF_step 2438 none _ [] _ _
        (ldmStep_msg2slot none 1800 [] (by decide)),
      show (2438 : Nat) = 2437 + 1 from rfl,
      loadMessagesF_brk 2437 none [] _ (ldmStep_nil none)]
    rfl
  have hNA : NewArchive2 [⟨3000, c4inner⟩] = .ok (AddFromLDMRecord
      ⟨[24], [⟨3000, some (parseMessage2 (body74 1800)), []⟩],
        fun _ => [], none⟩
      ⟨3000, some (parseMessage2 (body74 1800)), []⟩) := by
    simp only [NewArchive2, NewArchive2Go, hL]
    rfl
  have hmeta : (AddFromLDMRecord
      ⟨[24], [⟨3000, some (parseMessage2 (body74 1800)), []⟩],
        fun _ => [], none⟩
      ⟨3000, some (parseMessage2 (body74 1800)), []⟩).metadataStatusMessage =
      some (parseMessage2 (body74 1800)) := by
    rw [addFrom_metadata]
    simp
  exact ⟨_, hNA, hmeta,
    newArchive2_build_gate.2 [⟨3000, c4inner⟩] _ _ hNA hmeta⟩

/-! ## C3: which Message 2 is retained -/

/-- C3 evaluation at the failing input: an LDM record holding two type-2
messages (`RDABuild` 1800 then 1900) stores the SECOND one — the
`case 2` branch of `LoadLDMRecord` overwrites `loadedRecord.M2`
unconditionally, so within one record the last Message 2 wins, despite
the comment above it (`we'll keep the first one`) and the spec. -/
theorem newArchive2_second_m2_wins :
    ∃ a, NewArchive2 [⟨5000, c3inner⟩] = .ok a ∧
      a.metadataStatusMessage = some (parseMessage2 (body74 1900)) ∧
      (parseMessage2 (body74 1900)).RDABuild = 1900 ∧
      (parseMessage2 (body74 1800)).RDABuild = 1800 := by
  have hL : LoadLDMRecord none 5000 c3inner =
      (⟨5000, some (parseMessage2 (body74 1900)), []⟩, none) := by
    simp only [LoadLDMRecord, c3inner]
    rw [show storedSize 5000 = (5000 : Int) from by decide,
      if_neg (by norm_num),
      show (msg2slot 1800 ++ msg2slot 1900).length = 4876 from by
        simp only [List.length_append, length_msg2slot],
      loadMessagesF_step 4876 none _ _ _ _
        (ldmStep_msg2slot none 1800 (msg2slot 1900) (by decide)),
      show (4876 : Nat) = 4875 + 1 from rfl,
      show msg2slot 1900 = msg2slot 1900 ++ ([] : List Nat) from
        (List.append_nil _).symm,
      loadMessagesF_step 4875 none _ [] _ _
        (ldmStep_msg2slot none 1900 [] (by decide)),
      show (4875 : Nat) = 4874 + 1 from rfl,
      loadMessagesF_brk 4874 none [] _ (ldmStep_nil none)]
    rfl
  have hNA : NewArchive2 [⟨5000, c3inner⟩] = .ok (AddFromLDMRecord
      ⟨[24], [⟨5000, some (parseMessage2 (body74 1900)), []⟩],
        fun _ => [], none⟩
      ⟨5000, some (parseMessage2 (body74 1900)), []⟩) := by
    simp only [NewArchive2, NewArchive2Go, hL]
    rfl
  refine ⟨_, hNA, ?_, by decide, by decide⟩
  rw [addFrom_metadata]
  simp

/-! ## C8: the LDM size word -/

/-- A record whose stored size is 0 feeds nothing to the decompressor and
loads as an empty record with no error. -/
theorem loadLDMRecord_zero (st : Option Message2) (w : Int)
    (inner : List Nat) (h : storedSize w = 0) :
    LoadLDMRecord st w inner = (⟨0, none, []⟩, none) := by
  simp only [LoadLDMRecord, h]
  rw [if_pos (by norm_num)]
  rfl

/-- C8 counterexample: a zero size word does not terminate LDM iteration —
the record loads as empty and the loop continues with the next record,
which here is also loaded (2 records, offsets 24 and 28). -/
theorem newArchive2_counterexample_zero_size :
    ∃ a, NewArchive2 [⟨0, []⟩, ⟨50, c8skipInner⟩] = .ok a ∧
      a.LDMRecords.length = 2 ∧ a.LDMOffsets = [24, 28] ∧
      a.LDMRecords.map LoadedLDMRecord.Size = [0, 50] :=
  ⟨_, rfl, rfl, rfl, rfl⟩

/-- C8 amended: a negative size word above `-2^31` is interpreted as its
absolute value; a clean EOF at the length-word position (end of the outer
stream) terminates iteration normally with no error; a size word of 0
yields an empty `LoadedLDMRecord` and iteration continues with the next
record, advancing the offset by 4. -/
theorem ldm_size_word_handling :
    (∀ w : Int, -(2 ^ 31) < w → w < 0 → storedSize w = -w) ∧
    (NewArchive2 [] = .ok ⟨[], [], fun _ => [], none⟩) ∧
    (∀ (st : Option Message2) (w : Int) (inner : List Nat),
      storedSize w = 0 → LoadLDMRecord st w inner = (⟨0, none, []⟩, none)) ∧
    (∀ (rs : List RawLDM) (ar2 : Archive2) (off w : Int)
      (inner : List Nat), storedSize w = 0 →
      NewArchive2Go (⟨w, inner⟩ :: rs) ar2 off =
        NewArchive2Go rs
          (AddFromLDMRecord
            { ar2 with
              LDMOffsets := ar2.LDMOffsets ++ [off]
              LDMRecords := ar2.LDMRecords ++ [⟨0, none, []⟩] }
            ⟨0, none, []⟩)
          (off + 4)) := by
  refine ⟨?_, rfl, loadLDMRecord_zero, ?_⟩
  · intro w h1 h2
    simp only [storedSize, wrap32, if_pos h2]
    omega
  · intro rs ar2 off w inner h
    simp only [NewArchive2Go, loadLDMRecord_zero _ _ _ h]
    rw [show off + (⟨0, none, []⟩ : LoadedLDMRecord).Size + 4 = off + 4
      from by norm_num]

/-- Witness for C8 amended at concrete inputs. -/
theorem ldm_size_word_handling_witness :
    storedSize (-5) = 5 ∧
      LoadLDMRecord none 0 [1, 2, 3] = (⟨0, none, []⟩, none) :=
  ⟨by have h := ldm_size_word_handling.1 (-5) (by norm_num) (by norm_num)
      simpa using h,
    ldm_size_word_handling.2.2.1 none 0 [1, 2, 3] (by decide)⟩

/-! ## C9: the offset tally -/

/-- Appending one record extends the offset list by the previous end
offset. -/
theorem offsetsSpec_append (l : List LoadedLDMRecord) :
    ∀ (start : Int) (r : LoadedLDMRecord),
      offsetsSpec start (l ++ [r]) =
        offsetsSpec start l ++ [endOffset start l] := by
  induction l with
  | nil => intro start r; simp [offsetsSpec, endOffset]
  | cons x xs ih =>
    intro start r
    simp only [List.cons_append, offsetsSpec, endOffset, List.append_eq, ih]

/-- Appending one record advances the end offset by its `Size + 4`. -/
theorem endOffset_append (l : List LoadedLDMRecord) :
    ∀ (start : Int) (r : LoadedLDMRecord),
      endOffset start (l ++ [r]) = endOffset start l + r.Size + 4 := by
  induction l with
  | nil => intro start r; simp [endOffset]
  | cons x xs ih =>
    intro start r
    simp only [List.cons_append, endOffset, List.append_eq, ih]

/-- The offset list has one entry per record. -/
theorem length_offsetsSpec (l : List LoadedLDMRecord) :
    ∀ start : Int, (offsetsSpec start l).length = l.length := by
  induction l with
  | nil => intro start; rfl
  | cons x xs ih => intro start; simp only [offsetsSpec, List.length_cons, ih]

/-- Adjacent offsets of `offsetsSpec` differ by the record's `Size + 4`. -/
theorem offsetsSpec_diff (l : List LoadedLDMRecord) :
    ∀ (start : Int) (i : Nat), i + 1 < l.length →
      ∃ a b r, (offsetsSpec start l).get? i = some a ∧
        (offsetsSpec start l).get? (i + 1) = some b ∧
        l.get? i = some r ∧ b - a = r.Size + 4 := by
  induction l with
  | nil => intro start i h; simp at h
  | cons x xs ih =>
    intro start i h
    cases i with
    | zero =>
      cases xs with
      | nil => simp at h
      | cons y ys =>
        refine ⟨start, start + x.Size + 4, x, ?_, ?_, ?_, by ring⟩
        · simp [offsetsSpec]
        · simp [offsetsSpec]
        · simp
    | succ i =>
      have h2 : i + 1 < xs.length := by
        simp only [List.length_cons] at h
        omega
      obtain ⟨a, b, r, h1, h2', h3, h4⟩ := ih (start + x.Size + 4) i h2
      exact ⟨a, b, r, by simpa [offsetsSpec] using h1,
        by simpa [offsetsSpec] using h2', by simpa using h3, h4⟩

/-- Through the LDM loop, the offset list stays `offsetsSpec 24` of the
record list, and the running offset is the end offset. -/
theorem newArchive2Go_offsets (rs : List RawLDM) :
    ∀ (ar2 : Archive2) (off : Int) (out : Archive2),
      ar2.LDMOffsets = offsetsSpec 24 ar2.LDMRecords →
      off = endOffset 24 ar2.LDMRecords →
      NewArchive2Go rs ar2 off = .ok out →
      out.LDMOffsets = offsetsSpec 24 out.LDMRecords := by
  induction rs with
  | nil =>
    intro ar2 off out h1 h2 h3
    simp only [NewArchive2Go, Except.ok.injEq] at h3
    subst h3
    exact h1
  | cons r rs ih =>
    intro ar2 off out h1 h2 h3
    simp only [NewArchive2Go] at h3
    cases hL : LoadLDMRecord ar2.metadataStatusMessage r.sizeWord r.inner with
    | mk rec err =>
      rw [hL] at h3
      cases err with
      | none =>
        refine ih _ _ _ ?_ ?_ h3
        · rw [addFrom_offsets, addFrom_records]
          show ar2.LDMOffsets ++ [off] =
            offsetsSpec 24 (ar2.LDMRecords ++ [rec])
          rw [offsetsSpec_append, h1, h2]
        · rw [addFrom_records]
          show off + rec.Size + 4 = endOffset 24 (ar2.LDMRecords ++ [rec])
          rw [endOffset_append, h2]
      | some e =>
        cases e with
        | eof =>
          simp only [Except.ok.injEq] at h3
          subst h3
          exact h1
        | unexpectedEof => simp at h3
        | unknownDataBlock name => simp at h3
        | unsupportedBuild b => simp at h3
        | nilStatusPanic => simp at h3
        | outOfFuel => simp at h3

/-- C9: after a successful sequential decode, there is one offset per
record, the first offset is 24, and adjacent offsets differ by the
record's `Size + 4`. -/
theorem newArchive2_offset_invariants (input : List RawLDM)
    (ar2 : Archive2) (h : NewArchive2 input = .ok ar2) :
    ar2.LDMOffsets.length = ar2.LDMRecords.length ∧
      (ar2.LDMOffsets ≠ [] → ar2.LDMOffsets.get? 0 = some 24) ∧
      ∀ i, i + 1 < ar2.LDMOffsets.length →
        ∃ a b r, ar2.LDMOffsets.get? i = some a ∧
          ar2.LDMOffsets.get? (i + 1) = some b ∧
          ar2.LDMRecords.get? i = some r ∧ b - a = r.Size + 4 := by
  have h2 : NewArchive2Go input ⟨[], [], fun _ => [], none⟩ 24 = .ok ar2 := h
  have hspec : ar2.LDMOffsets = offsetsSpec 24 ar2.LDMRecords :=
    newArchive2Go_offsets input ⟨[], [], fun _ => [], none⟩ 24 ar2 rfl rfl h2
  refine ⟨by rw [hspec, length_offsetsSpec], ?_, ?_⟩
  · intro hne
    cases hrec : ar2.LDMRecords with
    | nil => rw [hspec, hrec] at hne; simp [offsetsSpec] at hne
    | cons x xs => rw [hspec, hrec]; simp [offsetsSpec]
  · intro i hi
    rw [hspec, length_offsetsSpec] at hi
    rw [hspec]
    exact offsetsSpec_diff ar2.LDMRecords 24 i hi

/-- Witness for C9: two records of stored sizes 10 and 7 sit at offsets 24
and 38. -/
theorem newArchive2_offset_invariants_witness :
    ∃ a, NewArchive2 [⟨10, []⟩, ⟨-7, []⟩] = .ok a ∧
      a.LDMOffsets.length = a.LDMRecords.length ∧
      a.LDMOffsets.get? 0 = some 24 ∧ a.LDMOffsets = [24, 38] := by
  have hE : NewArchive2 [⟨10, []⟩, ⟨-7, []⟩] = .ok
      ⟨[24, 38], [⟨10, none, []⟩, ⟨7, none, []⟩], fun _ => [], none⟩ := rfl
  refine ⟨_, hE, ?_, ?_, rfl⟩
  · exact (newArchive2_offset_invariants [⟨10, []⟩, ⟨-7, []⟩] _ hE).1
  · exact (newArchive2_offset_invariants [⟨10, []⟩, ⟨-7, []⟩] _ hE).2.1
      (by decide)

end GoNexrad
